import Mathlib

/-!
Verification of the MT5 JsonAPI ZeroMQ client (`src/mt5_jsonapi/client.py`).

The development shallowly embeds the client module:

* `Json` and `json_loads` model the Python values produced by `json.loads`
  and its accept/reject behaviour (including Python's `NaN`/`Infinity`
  extensions, duplicate-key last-wins objects and `JSONDecodeError`
  rendering as `msg: line L column C (char P)`).
* `PyValue` and `json_dumps` model the argument values handed to
  `json.dumps` — including objects with no JSON encoding, on which
  `json.dumps` raises `TypeError` — with Python's default separators and
  `ensure_ascii` escaping.
* `ReqSocket`/`PullSocket`/`JsonAPIClient` model the four ZeroMQ sockets.
  Frame arrival is modelled by an oracle list `incoming`: each receive
  consumes the next `RecvOutcome`, either a delivered text frame or a
  timeout (`zmq.Again`).  The REQ socket carries the alternating
  send/receive state machine of ZeroMQ REQ sockets: a send while a reply
  is still owed raises a state error (`EFSM`) and transmits nothing; a
  receive that times out leaves the socket still awaiting the reply.
* `send_command`, `receive_data`, `receive_live`, `receive_stream`,
  `close` and the constructor are translated line by line from the source;
  Python `return` values, `None` results and raised exceptions are the
  `ack`/`timeout`/`raised` (resp. `value`/`timeout`/`raised`)
  constructors of the result types.
-/

/-! ## JSON values (results of Python `json.loads`) -/

/-- A Python value that `json.loads` can produce.  Numbers are modelled
exactly as rationals (merging Python's `int`/`float` distinction, which no
claim depends on); `nonfinite` covers Python's accepted non-standard
constants `NaN`, `Infinity` and `-Infinity`, which have no rational
value. -/
inductive Json where
  | null : Json
  | bool (b : Bool) : Json
  | num (q : ℚ) : Json
  | str (s : String) : Json
  | arr (elems : List Json) : Json
  | obj (members : List (String × Json)) : Json
  | nonfinite (tag : String) : Json

/-- Python truthiness of a parsed JSON value (`bool(x)`): used by the
client's verbose branch `data.get("error", False)` test.  Non-finite
floats are truthy in Python. -/
def Json.truthy : Json → Bool
  | .null => false
  | .bool b => b
  | .num q => q ≠ 0
  | .str s => s ≠ ""
  | .arr es => ¬ es.isEmpty
  | .obj ms => ¬ ms.isEmpty
  | .nonfinite _ => true

/-- Key lookup in a parsed JSON object's member list (Python `d.get(k)` /
`d[k]` on the dict). -/
def Json.lookupKey (members : List (String × Json)) (k : String) : Option Json :=
  match members with
  | [] => none
  | (k', v) :: rest => if k' = k then some v else Json.lookupKey rest k

/-! ## The JSON scanner, following CPython's `json` module -/

/-- Whitespace accepted by Python's JSON scanner (`' \t\n\r'`). -/
def isJsonWs (c : Char) : Bool :=
  c = ' ' ∨ c = '\t' ∨ c = '\n' ∨ c = '\r'

/-- Drop leading JSON whitespace (Python's `WHITESPACE` regex). -/
def skipJsonWs : List Char → List Char
  | [] => []
  | c :: cs => if isJsonWs c then skipJsonWs cs else c :: cs

/-- Decimal digit test. -/
def isDec (c : Char) : Bool := '0' ≤ c ∧ c ≤ '9'

/-- Split off a maximal run of decimal digits. -/
def splitDigits : List Char → List Char × List Char
  | [] => ([], [])
  | c :: cs =>
    if isDec c then
      let (ds, rest) := splitDigits cs
      (c :: ds, rest)
    else ([], c :: cs)

/-- Numeric value of a digit run. -/
def digitsVal (ds : List Char) : Nat :=
  ds.foldl (fun sofar d => 10 * sofar + (d.toNat - 48)) 0

/-- Value of one hexadecimal digit, if any. -/
def hexDigitVal (c : Char) : Option Nat :=
  let n := c.toNat
  if 48 ≤ n ∧ n ≤ 57 then some (n - 48)
  else if 97 ≤ n ∧ n ≤ 102 then some (n - 87)
  else if 65 ≤ n ∧ n ≤ 70 then some (n - 55)
  else none

/-- Value of a four-hex-digit escape body. -/
def hexQuad (h1 h2 h3 h4 : Char) : Option Nat :=
  match hexDigitVal h1, hexDigitVal h2, hexDigitVal h3, hexDigitVal h4 with
  | some w, some x, some y, some z => some (w * 4096 + x * 256 + y * 16 + z)
  | _, _, _, _ => none

/-- The single-character JSON string escapes (CPython's `BACKSLASH`
table, minus the `\uXXXX` form handled separately). -/
def jsonEscapeChar (e : Char) : Option Char :=
  match e with
  | 'n' => some '\n'
  | 't' => some '\t'
  | 'r' => some '\r'
  | 'b' => some (Char.ofNat 0x08)
  | 'f' => some (Char.ofNat 0x0c)
  | '"' => some '"'
  | '/' => some '/'
  | '\\' => some '\\'
  | _ => none

/-- A parse error inside the scanner: the message together with the
number of characters remaining at the point of failure (from which the
absolute position is recovered at top level). -/
abbrev ScanErr := String × Nat

/-- Look ahead for the low half of a surrogate pair: a `\uXXXX` escape
whose value lies in `DC00`–`DFFF`.  Returns its value when present; the
caller then drops the six matched characters. -/
def lowSurrogateAhead (cs : List Char) : Option Nat :=
  match cs with
  | '\\' :: 'u' :: a :: b :: c :: d :: _ =>
    match hexQuad a b c d with
    | some m => if 0xdc00 ≤ m ∧ m ≤ 0xdfff then some m else none
    | none => none
  | _ => none

/-- Scan a JSON string body after the opening quote.  `startRem` is the
remaining length at the opening quote, used for the unterminated-string
error.  Strict mode: raw control characters are rejected.  Surrogate
pairs from `\uXXXX\uXXXX` are combined; a lone surrogate (which a Python
`str` can hold but a Lean `String` cannot) is replaced by U+FFFD, a
representation detail no claim observes. -/
def scanString (startRem : Nat) (acc : List Char) :
    List Char → Except ScanErr (String × List Char)
  | [] => .error ("Unterminated string starting at", startRem)
  | '"' :: rest => .ok (String.mk acc.reverse, rest)
  | '\\' :: rest =>
    match rest with
    | [] => .error ("Unterminated string starting at", startRem)
    | 'u' :: a :: b :: c :: d :: rest' =>
      (match hexQuad a b c d with
      | none => .error ("Invalid \\uXXXX escape", rest.length)
      | some n =>
        if 0xd800 ≤ n ∧ n ≤ 0xdbff then
          match lowSurrogateAhead rest' with
          | some m =>
            scanString startRem
              (Char.ofNat (0x10000 + (n - 0xd800) * 0x400 + (m - 0xdc00)) :: acc)
              (rest'.drop 6)
          | none => scanString startRem (Char.ofNat 0xfffd :: acc) rest'
        else scanString startRem (Char.ofNat n :: acc) rest')
    | e :: rest' =>
      match jsonEscapeChar e with
      | some ch => scanString startRem (ch :: acc) rest'
      | none => .error ("Invalid \\escape", rest.length + 1)
  | c :: rest =>
    if c.toNat < 0x20 then .error ("Invalid control character at", rest.length + 1)
    else scanString startRem (c :: acc) rest
termination_by cs => cs.length
decreasing_by
all_goals simp_arith [List.length_drop, *]

/-- Leading minus sign of a number literal (`-?` of the regex). -/
def scanMinus (cs : List Char) : Bool × List Char :=
  match cs with
  | '-' :: tl => (true, tl)
  | _ => (false, cs)

/-- Integer digits of a number literal: `(0|[1-9]\d*)` — a lone zero, or
a nonzero digit followed by any digit run.  `none` when no digit starts
here. -/
def scanWholePart (cs : List Char) : Option (List Char × List Char) :=
  match cs with
  | '0' :: tl => some (['0'], tl)
  | d :: tl =>
    if isDec d ∧ d ≠ '0' then
      match splitDigits tl with
      | (run, tail) => some (d :: run, tail)
    else none
  | [] => none

/-- Fraction digits of a number literal: `(\.\d+)?`.  A dot with no
digit after it belongs to the following token, not to the number (the
regex group needs at least one digit), so it is left unconsumed. -/
def scanFracPart (cs : List Char) : List Char × List Char :=
  match cs with
  | '.' :: tl =>
    (match splitDigits tl with
    | ([], _) => ([], cs)
    | (run, tail) => (run, tail))
  | _ => ([], cs)

/-- Exponent of a number literal: `([eE][-+]?\d+)?`, as a signed
integer.  An `e`/`E` not followed by (an optional sign and) at least one
digit is left unconsumed, like the bare dot. -/
def scanExpPart (cs : List Char) : Int × List Char :=
  match cs with
  | m :: tl =>
    if m = 'e' ∨ m = 'E' then
      let negExp := tl.head? = some '-'
      let body := if tl.head? = some '-' ∨ tl.head? = some '+' then tl.tail else tl
      match splitDigits body with
      | ([], _) => (0, cs)
      | (run, tail) => ((if negExp then -1 else 1) * (digitsVal run : Int), tail)
    else (0, cs)
  | [] => (0, cs)

/-- A JSON number, as matched by CPython's `NUMBER_RE` regex
`-?(0|[1-9]\d*)(\.\d+)?([eE][-+]?\d+)?` (maximal match; an invalid tail
such as the bare dot of `1.` is left unconsumed).  Returns `none` when no
number starts here, so the caller reports `Expecting value`. -/
def scanNumber (cs : List Char) : Option (ℚ × List Char) :=
  let (neg, afterSign) := scanMinus cs
  match scanWholePart afterSign with
  | none => none
  | some (whole, afterWhole) =>
    let (frac, afterFrac) := scanFracPart afterWhole
    let (ex, afterExp) := scanExpPart afterFrac
    let mag : Int := (digitsVal (whole ++ frac) : Int)
    let signedMant : Int := if neg then -mag else mag
    let scale : Int := ex - (frac.length : Int)
    let value : ℚ :=
      if 0 ≤ scale then (signedMant : ℚ) * ((10 : ℚ) ^ scale.toNat)
      else (signedMant : ℚ) / ((10 : ℚ) ^ (-scale).toNat)
    some (value, afterExp)

/-- Fold parsed object members into the member list Python's `dict`
building produces: a repeated key keeps its first position but takes the
last value. -/
def upsertMember (ms : List (String × Json)) (k : String) (v : Json) :
    List (String × Json) :=
  match ms with
  | [] => [(k, v)]
  | (k', v') :: rest =>
    if k' = k then (k', v) :: rest else (k', v') :: upsertMember rest k v

/-- Apply `upsertMember` over a parsed member sequence. -/
def dedupMembers (pairs : List (String × Json)) : List (String × Json) :=
  pairs.foldl (fun ms kv => upsertMember ms kv.1 kv.2) []

mutual

/-- Scan one JSON value (CPython `_scan_once` plus the whitespace skipping
its callers perform).  Structural on `fuel`; `json_loads` supplies enough
fuel that exhaustion is unreachable. -/
def scanValue : Nat → List Char → Except ScanErr (Json × List Char)
  | 0, cs => .error ("Expecting value", cs.length)
  | fuel + 1, cs0 =>
    let cs := skipJsonWs cs0
    match cs with
    | [] => .error ("Expecting value", 0)
    | c :: rest =>
      if c = '"' then
        match scanString cs.length [] rest with
        | .error e => .error e
        | .ok (s, rest') => .ok (Json.str s, rest')
      else if c = '{' then
        let r1 := skipJsonWs rest
        match r1 with
        | '}' :: r2 => .ok (Json.obj [], r2)
        | '"' :: _ =>
          (match scanMembers fuel r1 with
          | .error e => .error e
          | .ok (pairs, rest') => .ok (Json.obj (dedupMembers pairs), rest'))
        | _ => .error ("Expecting property name enclosed in double quotes", r1.length)
      else if c = '[' then
        let r1 := skipJsonWs rest
        match r1 with
        | ']' :: r2 => .ok (Json.arr [], r2)
        | _ =>
          match scanElements fuel r1 with
          | .error e => .error e
          | .ok (es, rest') => .ok (Json.arr es, rest')
      else if cs.take 4 = ['n', 'u', 'l', 'l'] then .ok (Json.null, cs.drop 4)
      else if cs.take 4 = ['t', 'r', 'u', 'e'] then .ok (Json.bool true, cs.drop 4)
      else if cs.take 5 = ['f', 'a', 'l', 's', 'e'] then .ok (Json.bool false, cs.drop 5)
      else if cs.take 3 = ['N', 'a', 'N'] then .ok (Json.nonfinite "nan", cs.drop 3)
      else if cs.take 8 = ['I', 'n', 'f', 'i', 'n', 'i', 't', 'y'] then
        .ok (Json.nonfinite "inf", cs.drop 8)
      else if cs.take 9 = ['-', 'I', 'n', 'f', 'i', 'n', 'i', 't', 'y'] then
        .ok (Json.nonfinite "-inf", cs.drop 9)
      else
        match scanNumber cs with
        | some (q, rest') => .ok (Json.num q, rest')
        | none => .error ("Expecting value", cs.length)

/-- Scan the comma-separated values of a non-empty array body, up to and
including the closing bracket. -/
def scanElements : Nat → List Char → Except ScanErr (List Json × List Char)
  | 0, cs => .error ("Expecting value", cs.length)
  | fuel + 1, cs => do
    let (v, r) ← scanValue fuel cs
    let r1 := skipJsonWs r
    match r1 with
    | ']' :: r2 => return ([v], r2)
    | ',' :: r2 => do
      let (vs, rest) ← scanElements fuel r2
      return (v :: vs, rest)
    | _ => .error ("Expecting ',' delimiter", r1.length)

/-- Scan the members of a non-empty object body, up to and including the
closing brace.  The input starts at the first key's opening quote. -/
def scanMembers : Nat → List Char → Except ScanErr (List (String × Json) × List Char)
  | 0, cs => .error ("Expecting property name enclosed in double quotes", cs.length)
  | fuel + 1, cs =>
    match cs with
    | '"' :: r => do
      let (key, r1) ← scanString cs.length [] r
      let r2 := skipJsonWs r1
      match r2 with
      | ':' :: r3 => do
        let (v, r4) ← scanValue fuel r3
        let r5 := skipJsonWs r4
        (match r5 with
        | '}' :: r6 => return ([(key, v)], r6)
        | ',' :: r6 => do
          let (ms, rest) ← scanMembers fuel (skipJsonWs r6)
          return ((key, v) :: ms, rest)
        | _ => .error ("Expecting ',' delimiter", r5.length))
      | _ => .error ("Expecting ':' delimiter", r2.length)
    | _ => .error ("Expecting property name enclosed in double quotes", cs.length)

end

/-- The payload of a Python `json.JSONDecodeError`: the failing document,
the bare message, and the character position. -/
structure JSONDecodeErr where
  msg : String
  doc : String
  pos : Nat

/-- Line and column of a position, as `JSONDecodeError.__init__` computes
them: lines counted by newlines before `pos`, column measured from the
last newline (1-based when none). -/
def lineColOf (doc : String) (pos : Nat) : Nat × Nat :=
  let pre := (doc.toList).take pos
  let line := pre.count '\n' + 1
  let lastNl := (pre.enum).foldl
    (fun acc ci => if ci.2 = '\n' then some ci.1 else acc) (none : Option Nat)
  let col := match lastNl with
    | none => pos + 1
    | some k => pos - k
  (line, col)

/-- Python's `str(e)` for a `JSONDecodeError`:
`"%s: line %d column %d (char %d)"`. -/
def jsonDecodeErrStr (e : JSONDecodeErr) : String :=
  let lc := lineColOf e.doc e.pos
  e.msg ++ ": line " ++ toString lc.1 ++ " column " ++ toString lc.2 ++
    " (char " ++ toString e.pos ++ ")"

/-- Python `json.loads`: scan one value, allow surrounding whitespace,
and reject trailing content as `Extra data`. -/
def json_loads (s : String) : Except JSONDecodeErr Json :=
  match scanValue (s.toList.length + 1) s.toList with
  | .error e => .error { msg := e.1, doc := s, pos := s.toList.length - e.2 }
  | .ok (v, rest) =>
    if (skipJsonWs rest).isEmpty then .ok v
    else .error { msg := "Extra data", doc := s,
                  pos := s.toList.length - (skipJsonWs rest).length }

/-! ## Python values handed to `json.dumps` -/

/-- A Python value that can appear among `send_command`'s keyword
arguments.  `object tn` stands for an instance of a type `json.dumps`
has no encoding for (for which it raises `TypeError`). -/
inductive PyValue where
  | null : PyValue
  | bool (b : Bool) : PyValue
  | int (i : Int) : PyValue
  | str (s : String) : PyValue
  | list (xs : List PyValue) : PyValue
  | dict (kvs : List (String × PyValue)) : PyValue
  | object (typeName : String) : PyValue

/-- Four lowercase hex digits of `n % 0x10000` (the body of a `\uXXXX`
escape as CPython emits it). -/
def hexStr4 (n : Nat) : String :=
  let dig := fun (k : Nat) => (Nat.digitChar (n / 16 ^ k % 16))
  String.mk [dig 3, dig 2, dig 1, dig 0]

/-- One character of a dumped JSON string under `ensure_ascii=True`
(CPython's `py_encode_basestring_ascii`): printable ASCII passes
through, the named escapes are used where they exist, everything else
becomes `\uXXXX`, astral characters as a surrogate pair. -/
def escAsciiChar (c : Char) : String :=
  if c = '\\' then "\\\\"
  else if c = '"' then "\\\""
  else if c = Char.ofNat 8 then "\\b"
  else if c = Char.ofNat 12 then "\\f"
  else if c = '\n' then "\\n"
  else if c = '\r' then "\\r"
  else if c = '\t' then "\\t"
  else if c.toNat < 0x20 ∨ 0x7e < c.toNat then
    if c.toNat ≤ 0xffff then "\\u" ++ hexStr4 c.toNat
    else
      let v := c.toNat - 0x10000
      "\\u" ++ hexStr4 (0xd800 + v / 0x400) ++ "\\u" ++ hexStr4 (0xdc00 + v % 0x400)
  else String.mk [c]

/-- A dumped, quoted JSON string literal. -/
def encodeJsonString (s : String) : String :=
  "\"" ++ String.join (s.toList.map escAsciiChar) ++ "\""

mutual

/-- Python `json.dumps` with its defaults (`ensure_ascii=True`, item
separator `", "`, key separator `": "`); raises `TypeError` on a value
with no JSON encoding. -/
def dumpsVal : PyValue → Except String String
  | .null => .ok "null"
  | .bool true => .ok "true"
  | .bool false => .ok "false"
  | .int i => .ok (toString i)
  | .str s => .ok (encodeJsonString s)
  | .list [] => .ok "[]"
  | .list (x :: xs) => do
    let h ← dumpsVal x
    let t ← dumpsListTail xs
    return "[" ++ h ++ t ++ "]"
  | .dict [] => .ok "\x7b\x7d"
  | .dict ((k, v) :: kvs) => do
    let h ← dumpsVal v
    let t ← dumpsDictTail kvs
    return "\x7b" ++ encodeJsonString k ++ ": " ++ h ++ t ++ "\x7d"
  | .object tn => .error ("Object of type " ++ tn ++ " is not JSON serializable")

/-- Remaining list items, each preceded by the item separator. -/
def dumpsListTail : List PyValue → Except String String
  | [] => .ok ""
  | x :: xs => do
    let h ← dumpsVal x
    let t ← dumpsListTail xs
    return ", " ++ h ++ t

/-- Remaining dict items, each preceded by the item separator. -/
def dumpsDictTail : List (String × PyValue) → Except String String
  | [] => .ok ""
  | (k, v) :: kvs => do
    let h ← dumpsVal v
    let t ← dumpsDictTail kvs
    return ", " ++ encodeJsonString k ++ ": " ++ h ++ t

end

/-- Top-level `json.dumps`. -/
def json_dumps (v : PyValue) : Except String String := dumpsVal v

/-! ## The four ZeroMQ sockets

Receiving is modelled by an oracle: `incoming` lists what each
successive `recv_string` call will observe — either a text frame
delivered within the effective receive timeout, or `zmq.Again`
(timeout).  An empty oracle also times out. -/

/-- What one `recv_string` call observes. -/
inductive RecvOutcome where
  | timeout : RecvOutcome
  | frame (s : String) : RecvOutcome
deriving DecidableEq

/-- Pop the next receive outcome off the oracle. -/
def nextOutcome : List RecvOutcome → RecvOutcome × List RecvOutcome
  | [] => (.timeout, [])
  | o :: rest => (o, rest)

/-- The alternation state of a ZeroMQ REQ socket: `ready` to send, or
`awaitingReply` after a send whose reply has not yet been received.  A
timed-out `recv` does not advance the state. -/
inductive ReqState where
  | ready : ReqState
  | awaitingReply : ReqState
deriving DecidableEq

/-- The System socket (`zmq.REQ`). -/
structure ReqSocket where
  connectedTo : Option String
  rcvtimeo : Int
  reqState : ReqState
  sentFrames : List String
  incoming : List RecvOutcome
  closed : Bool

/-- A PULL socket (Data, Live and Stream sockets). -/
structure PullSocket where
  connectedTo : Option String
  rcvtimeo : Int
  incoming : List RecvOutcome
  closed : Bool

/-- An exception raised by the client's Python code or the libraries it
calls. -/
inductive PyErr where
  | typeError (msg : String) : PyErr
  | zmqStateError : PyErr
  | zmqConnectError (addr : String) : PyErr
  | attributeError (attr : String) : PyErr
  | jsonDecodeError (e : JSONDecodeErr) : PyErr

/-- The fully constructed client: `__init__` ran to completion, so all
four socket attributes exist.  `contextTermCount` counts `context.term()`
calls. -/
structure JsonAPIClient where
  host : String
  verbose : Bool
  system_socket : ReqSocket
  data_socket : PullSocket
  live_socket : PullSocket
  stream_socket : PullSocket
  contextTermCount : Nat

/-- A possibly partially constructed client: when `__init__` raises
partway, only the attributes assigned before the raise exist (`none`
models a missing attribute). -/
structure PartialClient where
  host : String
  verbose : Bool
  system_socket : Option ReqSocket
  data_socket : Option PullSocket
  live_socket : Option PullSocket
  stream_socket : Option PullSocket
  contextTermCount : Nat

/-- Whether each of the four `connect` calls succeeds (a connect fails
only for transport-setup errors such as an invalid address; reachability
is not checked by ZeroMQ connect). -/
structure ConnectEnv where
  systemOk : Bool
  dataOk : Bool
  liveOk : Bool
  streamOk : Bool

/-- The address string `f"tcp://{host}:{port}"`. -/
def tcpAddr (host : String) (port : Nat) : String :=
  "tcp://" ++ host ++ ":" ++ toString port

/-- A freshly created, unconnected REQ socket (ZeroMQ's default receive
timeout is -1, infinite). -/
def freshReq : ReqSocket :=
  { connectedTo := none, rcvtimeo := -1, reqState := .ready,
    sentFrames := [], incoming := [], closed := false }

/-- A freshly created, unconnected PULL socket. -/
def freshPull : PullSocket :=
  { connectedTo := none, rcvtimeo := -1, incoming := [], closed := false }

/-- `JsonAPIClient.__init__`: create and connect the four sockets in
source order (System, Data, Live, Stream), then set the receive
timeouts (5000 ms on System and Data, 1000 ms on Live and Stream).  In
Python each socket attribute is assigned before its `connect` call, so
when a `connect` raises, the attributes assigned so far — including the
socket whose connect failed — exist and the later ones do not; the
raised error is returned together with that partial object state. -/
def initClient (host : String) (system_port data_port live_port stream_port : Nat)
    (verbose : Bool) (env : ConnectEnv) : Except (PyErr × PartialClient) JsonAPIClient :=
  let p0 : PartialClient :=
    { host, verbose, system_socket := some freshReq, data_socket := none,
      live_socket := none, stream_socket := none, contextTermCount := 0 }
  if ¬ env.systemOk then .error (.zmqConnectError (tcpAddr host system_port), p0)
  else
    let sys := { freshReq with connectedTo := some (tcpAddr host system_port) }
    let p1 := { p0 with system_socket := some sys, data_socket := some freshPull }
    if ¬ env.dataOk then .error (.zmqConnectError (tcpAddr host data_port), p1)
    else
      let dat := { freshPull with connectedTo := some (tcpAddr host data_port) }
      let p2 := { p1 with data_socket := some dat, live_socket := some freshPull }
      if ¬ env.liveOk then .error (.zmqConnectError (tcpAddr host live_port), p2)
      else
        let liv := { freshPull with connectedTo := some (tcpAddr host live_port) }
        let p3 := { p2 with live_socket := some liv, stream_socket := some freshPull }
        if ¬ env.streamOk then .error (.zmqConnectError (tcpAddr host stream_port), p3)
        else
          let str := { freshPull with connectedTo := some (tcpAddr host stream_port) }
          .ok { host, verbose,
                system_socket := { sys with rcvtimeo := 5000 },
                data_socket := { dat with rcvtimeo := 5000 },
                live_socket := { liv with rcvtimeo := 1000 },
                stream_socket := { str with rcvtimeo := 1000 },
                contextTermCount := 0 }

/-- Construction with the source's default arguments: ports 2201, 2202,
2203, 2204. -/
def initClientDefault (host : String) (verbose : Bool) (env : ConnectEnv) :
    Except (PyErr × PartialClient) JsonAPIClient :=
  initClient host 2201 2202 2203 2204 verbose env

/-! ## The client's operations -/

/-- The Python dict `{"action": action, **kwargs}` (`action` is a named
positional parameter, so `kwargs` never contains the key `"action"`). -/
def commandObject (action : String) (kwargs : List (String × PyValue)) : PyValue :=
  PyValue.dict (("action", PyValue.str action) :: kwargs)

/-- What a `send_command` call produces: the raw ACK text, Python
`None` after a receive timeout, or a raised exception. -/
inductive SendResult where
  | ack (response : String) : SendResult
  | timeout : SendResult
  | raised (e : PyErr) : SendResult

/-- `JsonAPIClient.send_command`: serialize `{"action": action,
**kwargs}` (a `TypeError` here propagates before anything is sent), send
the one frame on the System socket (raising the REQ state error — and
sending nothing — if a previous exchange's reply is still owed), then
wait for the ACK; `zmq.Again` is caught and turned into `None`, leaving
the REQ socket still awaiting a reply. -/
def send_command (c : JsonAPIClient) (action : String)
    (kwargs : List (String × PyValue)) : SendResult × JsonAPIClient :=
  match json_dumps (commandObject action kwargs) with
  | .error m => (.raised (.typeError m), c)
  | .ok message =>
    match c.system_socket.reqState with
    | .awaitingReply => (.raised .zmqStateError, c)
    | .ready =>
      let sent := { c.system_socket with
                    reqState := ReqState.awaitingReply
                    sentFrames := c.system_socket.sentFrames ++ [message] }
      match nextOutcome sent.incoming with
      | (RecvOutcome.frame a, rest) =>
        (.ack a, { c with system_socket :=
          { sent with reqState := ReqState.ready, incoming := rest } })
      | (RecvOutcome.timeout, rest) =>
        (.timeout, { c with system_socket := { sent with incoming := rest } })

/-- What a `receive_*` call produces: the parsed value, Python `None`
after a timeout, or a raised exception. -/
inductive RecvResult where
  | value (j : Json) : RecvResult
  | timeout : RecvResult
  | raised (e : PyErr) : RecvResult

/-- The synthetic envelope `receive_data` returns on a parse failure:
`{"error": True, "description": "JSON decode error", "raw_error":
str(e)}`. -/
def decodeErrorEnvelope (e : JSONDecodeErr) : Json :=
  Json.obj [("error", Json.bool true), ("description", Json.str "JSON decode error"),
    ("raw_error", Json.str (jsonDecodeErrStr e))]

/-- The observable effect of `receive_data`'s verbose logging block: the
prints themselves are ignored, but for a frame of at least 10000
characters the `elif not data.get("error", False)` test calls `.get` on
the parsed value, which raises `AttributeError` when that value is not a
dict. -/
def verboseDataCrash (verbose : Bool) (message : String) (j : Json) : Option PyErr :=
  if verbose ∧ 10000 ≤ message.length then
    match j with
    | Json.obj _ => none
    | _ => some (PyErr.attributeError "get")
  else none

/-- The body of `receive_data`'s `try` block: one `recv_string` on the
Data socket, `json.loads`, the verbose block, with `zmq.Again` mapped to
`None` and `json.JSONDecodeError` mapped to the synthetic envelope. -/
def receive_data_core (c : JsonAPIClient) : RecvResult × JsonAPIClient :=
  match nextOutcome c.data_socket.incoming with
  | (out, rest) =>
    let c' := { c with data_socket := { c.data_socket with incoming := rest } }
    match out with
    | RecvOutcome.timeout => (.timeout, c')
    | RecvOutcome.frame message =>
      match json_loads message with
      | .error e => (.value (decodeErrorEnvelope e), c')
      | .ok j =>
        match verboseDataCrash c.verbose message j with
        | some err => (.raised err, c')
        | none => (.value j, c')

/-- Overwrite the Data socket's `RCVTIMEO` option. -/
def setDataRcvtimeo (c : JsonAPIClient) (t : Int) : JsonAPIClient :=
  { c with data_socket := { c.data_socket with rcvtimeo := t } }

/-- `JsonAPIClient.receive_data`: with a `timeout_ms` override, the old
`RCVTIMEO` is read, the override installed, and the `finally` block
restores the old value on every exit path (return, `None`, envelope, or
a propagating exception). -/
def receive_data (c : JsonAPIClient) (timeout_ms : Option Int) :
    RecvResult × JsonAPIClient :=
  match timeout_ms with
  | none => receive_data_core c
  | some t =>
    let old := c.data_socket.rcvtimeo
    let r := receive_data_core (setDataRcvtimeo c t)
    (r.1, setDataRcvtimeo r.2 old)

/-- The body of `receive_live`'s `try` block: unlike `receive_data`
there is no `json.JSONDecodeError` handler, so a parse failure
propagates as a raised exception. -/
def receive_live_core (c : JsonAPIClient) : RecvResult × JsonAPIClient :=
  match nextOutcome c.live_socket.incoming with
  | (out, rest) =>
    let c' := { c with live_socket := { c.live_socket with incoming := rest } }
    match out with
    | RecvOutcome.timeout => (.timeout, c')
    | RecvOutcome.frame message =>
      match json_loads message with
      | .error e => (.raised (.jsonDecodeError e), c')
      | .ok j => (.value j, c')

/-- Overwrite the Live socket's `RCVTIMEO` option. -/
def setLiveRcvtimeo (c : JsonAPIClient) (t : Int) : JsonAPIClient :=
  { c with live_socket := { c.live_socket with rcvtimeo := t } }

/-- `JsonAPIClient.receive_live` (timeout override and `finally` as in
`receive_data`). -/
def receive_live (c : JsonAPIClient) (timeout_ms : Option Int) :
    RecvResult × JsonAPIClient :=
  match timeout_ms with
  | none => receive_live_core c
  | some t =>
    let old := c.live_socket.rcvtimeo
    let r := receive_live_core (setLiveRcvtimeo c t)
    (r.1, setLiveRcvtimeo r.2 old)

/-- The body of `receive_stream`'s `try` block; like `receive_live`, a
parse failure propagates. -/
def receive_stream_core (c : JsonAPIClient) : RecvResult × JsonAPIClient :=
  match nextOutcome c.stream_socket.incoming with
  | (out, rest) =>
    let c' := { c with stream_socket := { c.stream_socket with incoming := rest } }
    match out with
    | RecvOutcome.timeout => (.timeout, c')
    | RecvOutcome.frame message =>
      match json_loads message with
      | .error e => (.raised (.jsonDecodeError e), c')
      | .ok j => (.value j, c')

/-- Overwrite the Stream socket's `RCVTIMEO` option. -/
def setStreamRcvtimeo (c : JsonAPIClient) (t : Int) : JsonAPIClient :=
  { c with stream_socket := { c.stream_socket with rcvtimeo := t } }

/-- `JsonAPIClient.receive_stream` (timeout override and `finally` as in
`receive_data`). -/
def receive_stream (c : JsonAPIClient) (timeout_ms : Option Int) :
    RecvResult × JsonAPIClient :=
  match timeout_ms with
  | none => receive_stream_core c
  | some t =>
    let old := c.stream_socket.rcvtimeo
    let r := receive_stream_core (setStreamRcvtimeo c t)
    (r.1, setStreamRcvtimeo r.2 old)

/-- `JsonAPIClient.close` on a fully constructed client: close the four
sockets in source order, then `context.term()`. -/
def close (c : JsonAPIClient) : JsonAPIClient :=
  { c with
    system_socket := { c.system_socket with closed := true }
    data_socket := { c.data_socket with closed := true }
    live_socket := { c.live_socket with closed := true }
    stream_socket := { c.stream_socket with closed := true }
    contextTermCount := c.contextTermCount + 1 }

/-- `JsonAPIClient.close` as it executes on a possibly partially
constructed object: each `self.<socket>.close()` first looks the
attribute up, raising `AttributeError` — and abandoning the rest of the
method, including `context.term()` — when the attribute was never
assigned. -/
def closePy (p : PartialClient) : Option PyErr × PartialClient :=
  match p.system_socket with
  | none => (some (.attributeError "system_socket"), p)
  | some s =>
    let p1 := { p with system_socket := some { s with closed := true } }
    match p1.data_socket with
    | none => (some (.attributeError "data_socket"), p1)
    | some d =>
      let p2 := { p1 with data_socket := some { d with closed := true } }
      match p2.live_socket with
      | none => (some (.attributeError "live_socket"), p2)
      | some l =>
        let p3 := { p2 with live_socket := some { l with closed := true } }
        match p3.stream_socket with
        | none => (some (.attributeError "stream_socket"), p3)
        | some st =>
          let p4 := { p3 with stream_socket := some { st with closed := true } }
          (none, { p4 with contextTermCount := p4.contextTermCount + 1 })

/-! ## Concrete states shared by the witnesses and counterexamples -/

/-- A fully constructed client against localhost with the default ports
and timeouts, no pending deliveries. -/
def demoClient : JsonAPIClient :=
  { host := "localhost"
    verbose := false
    system_socket := { connectedTo := some "tcp://localhost:2201", rcvtimeo := 5000,
                       reqState := .ready, sentFrames := [], incoming := [], closed := false }
    data_socket := { connectedTo := some "tcp://localhost:2202", rcvtimeo := 5000,
                     incoming := [], closed := false }
    live_socket := { connectedTo := some "tcp://localhost:2203", rcvtimeo := 1000,
                     incoming := [], closed := false }
    stream_socket := { connectedTo := some "tcp://localhost:2204", rcvtimeo := 1000,
                       incoming := [], closed := false }
    contextTermCount := 0 }

/-- Schedule deliveries on the System socket. -/
def withSystemIncoming (c : JsonAPIClient) (o : List RecvOutcome) : JsonAPIClient :=
  { c with system_socket := { c.system_socket with incoming := o } }

/-- Schedule deliveries on the Data socket. -/
def withDataIncoming (c : JsonAPIClient) (o : List RecvOutcome) : JsonAPIClient :=
  { c with data_socket := { c.data_socket with incoming := o } }

/-- Schedule deliveries on the Live socket. -/
def withLiveIncoming (c : JsonAPIClient) (o : List RecvOutcome) : JsonAPIClient :=
  { c with live_socket := { c.live_socket with incoming := o } }

/-- Schedule deliveries on the Stream socket. -/
def withStreamIncoming (c : JsonAPIClient) (o : List RecvOutcome) : JsonAPIClient :=
  { c with stream_socket := { c.stream_socket with incoming := o } }

/-- An environment in which all four `connect` calls succeed. -/
def envAllOk : ConnectEnv := ⟨true, true, true, true⟩

/-- The object state `__init__` leaves behind when the Live socket's
`connect` raises: the first two sockets are connected, the Live socket
attribute exists but is unconnected, and the Stream socket attribute was
never assigned. -/
def partialAfterLiveConnectFailure : PartialClient :=
  { host := "localhost"
    verbose := false
    system_socket := some { freshReq with connectedTo := some "tcp://localhost:2201" }
    data_socket := some { freshPull with connectedTo := some "tcp://localhost:2202" }
    live_socket := some freshPull
    stream_socket := none
    contextTermCount := 0 }

/-- The demo client with verbose logging on. -/
def verboseDemoClient : JsonAPIClient :=
  { demoClient with verbose := true }

/-- A 10000-character frame that parses as a JSON string (not an
object). -/
def hugeNonObjectFrame : String :=
  String.mk ('"' :: (List.replicate 9998 'a' ++ ['"']))

/-! ## The claims -/

/-- C1: for every non-empty action and JSON-serializable keyword
parameters (formalized as: `json.dumps` succeeds on the command dict),
`send_command` serializes exactly the one object `{"action": action,
**kwargs}` — whose `"action"` field is the given action and which
carries every given parameter as a top-level field — appends exactly
one frame (that serialization) to the System socket's sent frames, and
returns the raw acknowledgment text when an acknowledgment frame
arrives within the command endpoint's timeout. -/
theorem send_command_one_frame_returns_ack (c : JsonAPIClient) (action : String)
    (kwargs : List (String × PyValue)) (msg a : String) (rest : List RecvOutcome)
    (hact : action ≠ "")
    (hser : json_dumps (commandObject action kwargs) = Except.ok msg)
    (hready : c.system_socket.reqState = ReqState.ready)
    (hin : c.system_socket.incoming = RecvOutcome.frame a :: rest) :
    (send_command c action kwargs).1 = SendResult.ack a
    ∧ (send_command c action kwargs).2.system_socket.sentFrames
        = c.system_socket.sentFrames ++ [msg]
    ∧ (∃ kvs, commandObject action kwargs = PyValue.dict kvs
        ∧ kvs.lookup "action" = some (PyValue.str action)
        ∧ ∀ k v, k ≠ "action" → kwargs.lookup k = some v → kvs.lookup k = some v) := by
  refine ⟨?_, ?_, ⟨("action", PyValue.str action) :: kwargs, rfl, ?_, ?_⟩⟩
  · simp [send_command, hser, hready, hin, nextOutcome]
  · simp [send_command, hser, hready, hin, nextOutcome]
  · simp [List.lookup]
  · intro k v hk hlk
    have hne : (k == "action") = false := beq_eq_false_iff_ne.mpr hk
    simpa [List.lookup, hne] using hlk

/-- Witness for C1 at a concrete input: action `"CONFIG"`, one
parameter, acknowledgment frame `"ok"`. -/
theorem send_command_one_frame_returns_ack_witness :
    ("CONFIG" : String) ≠ ""
    ∧ json_dumps (commandObject "CONFIG" [("symbol", PyValue.str "EURUSD")])
        = Except.ok "\x7b\"action\": \"CONFIG\", \"symbol\": \"EURUSD\"\x7d"
    ∧ (send_command (withSystemIncoming demoClient [RecvOutcome.frame "ok"]) "CONFIG"
        [("symbol", PyValue.str "EURUSD")]).1 = SendResult.ack "ok"
    ∧ (send_command (withSystemIncoming demoClient [RecvOutcome.frame "ok"]) "CONFIG"
        [("symbol", PyValue.str "EURUSD")]).2.system_socket.sentFrames
        = ["\x7b\"action\": \"CONFIG\", \"symbol\": \"EURUSD\"\x7d"] := by
  have h := send_command_one_frame_returns_ack
    (withSystemIncoming demoClient [RecvOutcome.frame "ok"]) "CONFIG"
    [("symbol", PyValue.str "EURUSD")]
    "\x7b\"action\": \"CONFIG\", \"symbol\": \"EURUSD\"\x7d" "ok" []
    (by decide) rfl rfl rfl
  exact ⟨by decide, rfl, h.1, h.2.1⟩

/-- C2: evidence of the code bug at the claim's own scenario.  On the
demo client the simulated command endpoint times out: `send_command
"ACCOUNT"` does return the absent-value sentinel without raising — but
the REQ socket is left still awaiting the never-delivered reply, so the
subsequent `send_command "BALANCE"` on the same client raises ZeroMQ's
state error (`EFSM`) from `send_string` and appends no frame at all,
where the claim requires a well-formed frame to be sent. -/
theorem send_command_timeout_bricks_client :
    (send_command (withSystemIncoming demoClient [RecvOutcome.timeout]) "ACCOUNT" []).1
      = SendResult.timeout
    ∧ ((send_command ((send_command (withSystemIncoming demoClient [RecvOutcome.timeout])
          "ACCOUNT" []).2) "BALANCE" []).1 = SendResult.raised PyErr.zmqStateError
    ∧ (send_command ((send_command (withSystemIncoming demoClient [RecvOutcome.timeout])
          "ACCOUNT" []).2) "BALANCE" []).2.system_socket.sentFrames
        = ["\x7b\"action\": \"ACCOUNT\"\x7d"]) :=
  ⟨rfl, rfl, rfl⟩

/-- C10: when a keyword-parameter value is not JSON serializable,
`json.dumps` raises `TypeError` before `send_string` runs, so the call
raises and the whole client — the System socket's sent frames, REQ
state and pending deliveries included — is exactly as before the
call. -/
theorem send_command_serialize_failure_is_atomic (c : JsonAPIClient) (action : String)
    (kwargs : List (String × PyValue)) (m : String)
    (hser : json_dumps (commandObject action kwargs) = Except.error m) :
    (send_command c action kwargs).1 = SendResult.raised (PyErr.typeError m)
    ∧ (send_command c action kwargs).2 = c := by
  refine ⟨?_, ?_⟩ <;> simp [send_command, hser]

/-- Witness for C10: a Python `set` among the parameters makes
serialization fail; the client is returned unchanged. -/
theorem send_command_serialize_failure_is_atomic_witness :
    json_dumps (commandObject "TRADE" [("ids", PyValue.object "set")])
      = Except.error "Object of type set is not JSON serializable"
    ∧ (send_command demoClient "TRADE" [("ids", PyValue.object "set")]).1
        = SendResult.raised (PyErr.typeError "Object of type set is not JSON serializable")
    ∧ (send_command demoClient "TRADE" [("ids", PyValue.object "set")]).2 = demoClient := by
  have h := send_command_serialize_failure_is_atomic demoClient "TRADE"
    [("ids", PyValue.object "set")] "Object of type set is not JSON serializable" rfl
  exact ⟨rfl, h.1, h.2⟩

/-- C3: when the Data socket delivers a text frame that fails to parse
as JSON, `receive_data` returns (rather than raises) the synthetic
envelope whose `error` field is `True`, whose `description` is the
non-empty parse-failure text `"JSON decode error"`, and whose
`raw_error` is the raw rendering of the parse error — with or without a
timeout override. -/
theorem receive_data_parse_failure_returns_envelope (c : JsonAPIClient) (s : String)
    (rest : List RecvOutcome) (e : JSONDecodeErr) (timeout_ms : Option Int)
    (hin : c.data_socket.incoming = RecvOutcome.frame s :: rest)
    (hparse : json_loads s = Except.error e) :
    (receive_data c timeout_ms).1
      = RecvResult.value (Json.obj [("error", Json.bool true),
          ("description", Json.str "JSON decode error"),
          ("raw_error", Json.str (jsonDecodeErrStr e))])
    ∧ ("JSON decode error" : String) ≠ "" := by
  refine ⟨?_, by decide⟩
  cases timeout_ms <;>
    simp [receive_data, receive_data_core, setDataRcvtimeo, nextOutcome, hin, hparse,
      decodeErrorEnvelope]

/-- Witness for C3: the frame `"not json"` yields the envelope carrying
Python's `Expecting value: line 1 column 1 (char 0)`. -/
theorem receive_data_parse_failure_returns_envelope_witness :
    json_loads "not json"
      = Except.error { msg := "Expecting value", doc := "not json", pos := 0 }
    ∧ (receive_data (withDataIncoming demoClient [RecvOutcome.frame "not json"]) none).1
      = RecvResult.value (Json.obj [("error", Json.bool true),
          ("description", Json.str "JSON decode error"),
          ("raw_error", Json.str "Expecting value: line 1 column 1 (char 0)")]) := by
  have h := receive_data_parse_failure_returns_envelope
    (withDataIncoming demoClient [RecvOutcome.frame "not json"]) "not json" []
    { msg := "Expecting value", doc := "not json", pos := 0 } none rfl rfl
  exact ⟨rfl, h.1⟩

/-- C4: a frame on the Live or Stream socket that fails to parse as
JSON makes `receive_live` resp. `receive_stream` raise the parse error
(there is no `JSONDecodeError` handler on these paths): the call
produces neither the absent-value sentinel nor any returned value such
as a synthetic envelope, unlike `receive_data`. -/
theorem receive_live_stream_parse_failure_raises (c : JsonAPIClient) (s t : String)
    (restL restS : List RecvOutcome) (e f : JSONDecodeErr) (timeout_ms : Option Int)
    (hinL : c.live_socket.incoming = RecvOutcome.frame s :: restL)
    (hpL : json_loads s = Except.error e)
    (hinS : c.stream_socket.incoming = RecvOutcome.frame t :: restS)
    (hpS : json_loads t = Except.error f) :
    ((receive_live c timeout_ms).1 = RecvResult.raised (PyErr.jsonDecodeError e)
      ∧ (receive_live c timeout_ms).1 ≠ RecvResult.timeout
      ∧ ∀ j, (receive_live c timeout_ms).1 ≠ RecvResult.value j)
    ∧ ((receive_stream c timeout_ms).1 = RecvResult.raised (PyErr.jsonDecodeError f)
      ∧ (receive_stream c timeout_ms).1 ≠ RecvResult.timeout
      ∧ ∀ j, (receive_stream c timeout_ms).1 ≠ RecvResult.value j) := by
  have hL : (receive_live c timeout_ms).1 = RecvResult.raised (PyErr.jsonDecodeError e) := by
    cases timeout_ms <;>
      simp [receive_live, receive_live_core, setLiveRcvtimeo, nextOutcome, hinL, hpL]
  have hS : (receive_stream c timeout_ms).1 = RecvResult.raised (PyErr.jsonDecodeError f) := by
    cases timeout_ms <;>
      simp [receive_stream, receive_stream_core, setStreamRcvtimeo, nextOutcome, hinS, hpS]
  refine ⟨⟨hL, ?_, ?_⟩, hS, ?_, ?_⟩
  · rw [hL]; simp
  · intro j; rw [hL]; simp
  · rw [hS]; simp
  · intro j; rw [hS]; simp

/-- Witness for C4: the malformed frame `"invalid json \x7b"` makes
both pollers raise the decode error. -/
theorem receive_live_stream_parse_failure_raises_witness :
    json_loads "invalid json \x7b"
      = Except.error { msg := "Expecting value", doc := "invalid json \x7b", pos := 0 }
    ∧ (receive_live (withLiveIncoming (withStreamIncoming demoClient
          [RecvOutcome.frame "invalid json \x7b"]) [RecvOutcome.frame "invalid json \x7b"])
        none).1
      = RecvResult.raised (PyErr.jsonDecodeError
          { msg := "Expecting value", doc := "invalid json \x7b", pos := 0 })
    ∧ (receive_stream (withLiveIncoming (withStreamIncoming demoClient
          [RecvOutcome.frame "invalid json \x7b"]) [RecvOutcome.frame "invalid json \x7b"])
        none).1
      = RecvResult.raised (PyErr.jsonDecodeError
          { msg := "Expecting value", doc := "invalid json \x7b", pos := 0 }) := by
  have h := receive_live_stream_parse_failure_raises
    (withLiveIncoming (withStreamIncoming demoClient
      [RecvOutcome.frame "invalid json \x7b"]) [RecvOutcome.frame "invalid json \x7b"])
    "invalid json \x7b" "invalid json \x7b" [] []
    { msg := "Expecting value", doc := "invalid json \x7b", pos := 0 }
    { msg := "Expecting value", doc := "invalid json \x7b", pos := 0 }
    none rfl rfl rfl rfl
  exact ⟨rfl, h.1.1, h.2.1⟩

/-- C5: when the next receive on the relevant socket observes no frame
within the effective timeout (`zmq.Again`), each of `receive_data`,
`receive_live` and `receive_stream` returns the absent-value sentinel —
never a raised exception — and that sentinel differs from every
synthetic parse-failure envelope, so a caller can distinguish the two
outcomes. -/
theorem receive_timeout_returns_sentinel (c : JsonAPIClient) (timeout_ms : Option Int)
    (restD restL restS : List RecvOutcome)
    (hd : nextOutcome c.data_socket.incoming = (RecvOutcome.timeout, restD))
    (hl : nextOutcome c.live_socket.incoming = (RecvOutcome.timeout, restL))
    (hs : nextOutcome c.stream_socket.incoming = (RecvOutcome.timeout, restS)) :
    (receive_data c timeout_ms).1 = RecvResult.timeout
    ∧ (receive_live c timeout_ms).1 = RecvResult.timeout
    ∧ (receive_stream c timeout_ms).1 = RecvResult.timeout
    ∧ ∀ e, RecvResult.timeout ≠ RecvResult.value (decodeErrorEnvelope e) := by
  refine ⟨?_, ?_, ?_, by intro e; simp⟩
  · cases timeout_ms <;> simp [receive_data, receive_data_core, setDataRcvtimeo, hd]
  · cases timeout_ms <;> simp [receive_live, receive_live_core, setLiveRcvtimeo, hl]
  · cases timeout_ms <;> simp [receive_stream, receive_stream_core, setStreamRcvtimeo, hs]

/-- Witness for C5 on the demo client, whose oracles schedule no
deliveries, with a 2500 ms override. -/
theorem receive_timeout_returns_sentinel_witness :
    nextOutcome demoClient.data_socket.incoming = (RecvOutcome.timeout, [])
    ∧ (receive_data demoClient (some 2500)).1 = RecvResult.timeout
    ∧ (receive_live demoClient (some 2500)).1 = RecvResult.timeout
    ∧ (receive_stream demoClient (some 2500)).1 = RecvResult.timeout := by
  have h := receive_timeout_returns_sentinel demoClient (some 2500) [] [] [] rfl rfl rfl
  exact ⟨rfl, h.1, h.2.1, h.2.2.1⟩

/-- C6: a `timeout_ms` override applies to that call only: whatever the
exit path (value, sentinel, envelope or raised error — the receive
oracle is arbitrary here), the socket's previously configured receive
timeout is restored by the `finally` block before the call completes,
so a later call without an override runs under the endpoint's default
timeout again. -/
theorem receive_timeout_override_restored (c : JsonAPIClient) (t : Int) :
    ((receive_data c (some t)).2).data_socket.rcvtimeo = c.data_socket.rcvtimeo
    ∧ ((receive_live c (some t)).2).live_socket.rcvtimeo = c.live_socket.rcvtimeo
    ∧ ((receive_stream c (some t)).2).stream_socket.rcvtimeo = c.stream_socket.rcvtimeo :=
  ⟨rfl, rfl, rfl⟩

/-- C7 (amended): on a fully constructed client, `close()` closes all
four endpoints and performs exactly one `context.term()`.  The original
claim's partial-construction half is false — see the counterexample —
because `close()` accesses the socket attributes unguarded. -/
theorem close_closes_all_and_terms_once (c : JsonAPIClient) :
    (close c).system_socket.closed = true
    ∧ (close c).data_socket.closed = true
    ∧ (close c).live_socket.closed = true
    ∧ (close c).stream_socket.closed = true
    ∧ (close c).contextTermCount = c.contextTermCount + 1 :=
  ⟨rfl, rfl, rfl, rfl, rfl⟩

/-- Counterexample to C7 as stated: when the Live socket's `connect`
fails during construction, the `stream_socket` attribute is never
assigned; `close()` on that partially constructed object raises
`AttributeError` instead of completing, and the shared context is never
released. -/
theorem close_after_partial_construction_raises :
    initClientDefault "localhost" false ⟨true, true, false, true⟩
      = Except.error (PyErr.zmqConnectError "tcp://localhost:2203",
          partialAfterLiveConnectFailure)
    ∧ (closePy partialAfterLiveConnectFailure).1
        = some (PyErr.attributeError "stream_socket")
    ∧ (closePy partialAfterLiveConnectFailure).2.contextTermCount = 0 :=
  ⟨rfl, rfl, rfl⟩

/-- C8: construction with the default arguments, in an environment
where every `connect` succeeds, yields a client whose four sockets are
connected to ports 2201 (System/command), 2202 (Data/result), 2203
(Live/quote) and 2204 (Stream/event) on the given host, with default
receive timeouts of 5000 ms on the System and Data sockets and 1000 ms
on the Live and Stream sockets. -/
theorem initClient_default_ports_and_timeouts (host : String) (verbose : Bool) :
    ∃ c, initClientDefault host verbose envAllOk = Except.ok c
      ∧ c.system_socket.connectedTo = some (tcpAddr host 2201)
      ∧ c.data_socket.connectedTo = some (tcpAddr host 2202)
      ∧ c.live_socket.connectedTo = some (tcpAddr host 2203)
      ∧ c.stream_socket.connectedTo = some (tcpAddr host 2204)
      ∧ c.system_socket.rcvtimeo = 5000
      ∧ c.data_socket.rcvtimeo = 5000
      ∧ c.live_socket.rcvtimeo = 1000
      ∧ c.stream_socket.rcvtimeo = 1000 :=
  ⟨_, rfl, rfl, rfl, rfl, rfl, rfl, rfl, rfl, rfl⟩

/-- C9 (amended): with verbose logging off (the default), every Data
socket frame that parses as valid JSON is returned by `receive_data`
exactly as parsed, with no validation of the envelope shape — non-object
values and objects missing the `error`/`description`/`data` fields
included (the hypotheses place no constraint on the parsed value `j`);
with verbose logging on, a frame of at least 10000 characters parsing to
a non-object raises `AttributeError` in the logging path instead (see
the counterexample).  The synthetic parse-failure envelope, by contrast,
never contains a `"data"` field. -/
theorem receive_data_returns_parsed_value_unvalidated (c : JsonAPIClient) (s : String)
    (rest : List RecvOutcome) (j : Json) (timeout_ms : Option Int)
    (hverb : c.verbose = false)
    (hin : c.data_socket.incoming = RecvOutcome.frame s :: rest)
    (hparse : json_loads s = Except.ok j) :
    (receive_data c timeout_ms).1 = RecvResult.value j
    ∧ ∀ e ms, decodeErrorEnvelope e = Json.obj ms → Json.lookupKey ms "data" = none := by
  refine ⟨?_, ?_⟩
  · cases timeout_ms <;>
      simp [receive_data, receive_data_core, setDataRcvtimeo, nextOutcome, hin, hparse,
        verboseDataCrash, hverb]
  · intro e ms hms
    cases hms
    simp [Json.lookupKey, decodeErrorEnvelope]

/-- Witness for C9 (amended): the non-object frame `"[true, null]"` is
returned as the parsed two-element list, untouched. -/
theorem receive_data_returns_parsed_value_unvalidated_witness :
    (withDataIncoming demoClient [RecvOutcome.frame "[true, null]"]).verbose = false
    ∧ json_loads "[true, null]" = Except.ok (Json.arr [Json.bool true, Json.null])
    ∧ (receive_data (withDataIncoming demoClient [RecvOutcome.frame "[true, null]"]) none).1
        = RecvResult.value (Json.arr [Json.bool true, Json.null]) := by
  have h := receive_data_returns_parsed_value_unvalidated
    (withDataIncoming demoClient [RecvOutcome.frame "[true, null]"]) "[true, null]" []
    (Json.arr [Json.bool true, Json.null]) none rfl rfl rfl
  exact ⟨rfl, rfl, h.1⟩


/-! ## Evaluation lemmas for the oversized-frame counterexample

`rfl`-evaluation cannot cross a 10000-character frame (the reduction is
too deep), so the parse of the counterexample's frame is established by
induction on its 9998-character filler instead. -/

/-- One scanner step over an ordinary character. -/
theorem scanString_step_alpha (startRem : Nat) (acc rest : List Char) :
    scanString startRem acc ('a' :: rest) = scanString startRem ('a' :: acc) rest := by
  rw [scanString.eq_def]; simp

/-- The scanner consumes a run of `n` ordinary characters up to the
closing quote, by induction on `n`. -/
theorem scanString_replicate_alpha :
    ∀ (n startRem : Nat) (acc : List Char),
      scanString startRem acc (List.replicate n 'a' ++ ['"'])
        = Except.ok (String.mk (acc.reverse ++ List.replicate n 'a'), ([] : List Char))
  | 0, startRem, acc => by
    rw [List.replicate_zero, List.nil_append, scanString.eq_def]
    simp
  | n + 1, startRem, acc => by
    rw [List.replicate_succ, List.cons_append, scanString_step_alpha,
      scanString_replicate_alpha n startRem ('a' :: acc)]
    simp [List.replicate_succ]

/-- A value starting with a quote is scanned by `scanString`. -/
theorem scanValue_quote (fuel : Nat) (r : List Char) :
    scanValue (fuel + 1) ('"' :: r)
      = match scanString ('"' :: r).length [] r with
        | .error e => .error e
        | .ok (s, rest') => .ok (Json.str s, rest') := by
  rw [scanValue.eq_def]
  have hskip : skipJsonWs ('"' :: r) = '"' :: r := rfl
  simp only [hskip]
  simp

/-- The 10000-character frame parses as one long JSON string. -/
theorem huge_parse :
    json_loads hugeNonObjectFrame
      = Except.ok (Json.str (String.mk (List.replicate 9998 'a'))) := by
  have hlist : hugeNonObjectFrame.toList = '"' :: (List.replicate 9998 'a' ++ ['"']) := rfl
  rw [json_loads.eq_def, hlist, scanValue_quote,
    scanString_replicate_alpha 9998 (('"' :: (List.replicate 9998 'a' ++ ['"'])).length) []]
  rfl

/-- Length of the oversized frame, without evaluating its characters. -/
theorem hugeNonObjectFrame_len : hugeNonObjectFrame.length = 10000 := by
  show (String.mk ('"' :: (List.replicate 9998 'a' ++ ['"']))).length = 10000
  rw [show ∀ l : List Char, (String.mk l).length = l.length from fun l => rfl,
    List.length_cons, List.length_append, List.length_replicate]
  rfl

/-- The result of `receive_data` on a delivered frame, as a function of
the parse outcome and the verbose logging block. -/
theorem receive_data_frame_shape (c : JsonAPIClient) (msg : String)
    (rest : List RecvOutcome)
    (hin : c.data_socket.incoming = RecvOutcome.frame msg :: rest) :
    (receive_data c none).1
      = match json_loads msg with
        | .error e => RecvResult.value (decodeErrorEnvelope e)
        | .ok j =>
          match verboseDataCrash c.verbose msg j with
          | some err => RecvResult.raised err
          | none => RecvResult.value j := by
  simp only [receive_data, receive_data_core, nextOutcome, hin]
  cases hjl : json_loads msg with
  | error e => simp
  | ok j => cases hvc : verboseDataCrash c.verbose msg j <;> simp [hvc]

/-- The logging block raises on the oversized non-object frame. -/
theorem verboseDataCrash_huge :
    verboseDataCrash true hugeNonObjectFrame (Json.str (String.mk (List.replicate 9998 'a')))
      = some (PyErr.attributeError "get") := by
  unfold verboseDataCrash
  rw [hugeNonObjectFrame_len]
  rw [if_pos (show (true = true) ∧ 10000 ≤ 10000 from ⟨rfl, by norm_num⟩)]

/-- Counterexample to C9 as stated: with verbose logging on, a
10000-character frame parsing to a valid non-object JSON value (a
string) makes `receive_data` raise `AttributeError` from
`data.get("error", False)` in the logging block, instead of returning
the parsed value. -/
theorem receive_data_verbose_large_nonobject_raises :
    (receive_data (withDataIncoming verboseDemoClient
        [RecvOutcome.frame hugeNonObjectFrame]) none).1
      = RecvResult.raised (PyErr.attributeError "get") := by
  rw [receive_data_frame_shape (withDataIncoming verboseDemoClient
      [RecvOutcome.frame hugeNonObjectFrame]) hugeNonObjectFrame [] rfl]
  rw [huge_parse]
  rw [show (withDataIncoming verboseDemoClient
      [RecvOutcome.frame hugeNonObjectFrame]).verbose = true from rfl]
  dsimp only []
  rw [verboseDataCrash_huge]
